import Mathlib

/-!
Verification of the agent-orchestra execution engine against its
natural-language specification.

The definitions below are shallow embeddings of the Python source under
`src/backend`.  Pure decision logic (the finding parser, the sandbox
policy, the token checks, the replay-buffer arithmetic, the agent-table
operations) is translated into executable Lean functions; effectful code
is modelled by explicit state passing.  Each embedded definition cites
the source function it mirrors.
-/

namespace Orchestra

/-! ## Character-level helpers

The finding parser (`src/backend/services/parser.py`) uses Python
regular expressions with `re.IGNORECASE` and `pattern.search`.  The
patterns involved are simple enough (literal keyword, optional
whitespace, non-empty remainder; or the CVE digit shape) that they are
modelled exactly by the scanning functions below, operating on the
line's character list.  Matching is case-insensitive but captured text
keeps the original case, as in Python. -/

/-- Python `\s` for the ASCII range: space, tab, newline, carriage
return, vertical tab, form feed. -/
def pyWs (c : Char) : Bool :=
  c = ' ' || c = '\t' || c = '\n' || c = '\r' || c = '\x0b' || c = '\x0c'

/-- Strip leading and trailing whitespace, as Python `str.strip()`. -/
def pyStrip (l : List Char) : List Char :=
  ((l.dropWhile pyWs).reverse.dropWhile pyWs).reverse

/-- Python `str.lower()` for the ASCII range, character by character. -/
def pyLower (s : String) : String :=
  String.mk (s.data.map Char.toLower)

/-- Case-insensitive "marker occurs at the head" test. -/
def headIC : List Char → List Char → Bool
  | [], _ => true
  | _ :: _, [] => false
  | m :: ms, c :: cs => (m.toUpper == c.toUpper) && headIC ms cs

/-- Case-insensitive search: find the first occurrence of `marker` and
return the characters after it (in original case), mirroring
`re.search` of a literal followed by a capture of the remainder. -/
def searchIC (marker : List Char) : List Char → Option (List Char)
  | [] => none
  | c :: rest =>
    if headIC marker (c :: rest) then some ((c :: rest).drop marker.length)
    else searchIC marker rest

/-- Model of `pattern.search` for the keyword patterns of
`_FINDING_PATTERNS` (`KEYWORD\s*(.+)` with `re.IGNORECASE`): the
keyword must occur somewhere in the line with at least one character
after it (`\s*` may be empty, `(.+)` needs one character).  Returns
the remainder after the keyword; the stored title is its stripped
form, which coincides with the stripped capture group. -/
def matchKeyword (marker : List Char) (line : List Char) : Option (List Char) :=
  match searchIC marker line with
  | none => none
  | some rest => if rest.isEmpty then none else some rest

/-- Match `SECRET\s+(?:FOUND|DETECTED):\s*(.+)` at the head of `l`. -/
def matchSecretAt (l : List Char) : Option (List Char) :=
  if headIC ("SECRET".data) l then
    let r := l.drop 6
    if (r.takeWhile pyWs).isEmpty then none
    else
      let r2 := r.dropWhile pyWs
      if headIC ("FOUND:".data) r2 then
        let rest := r2.drop 6
        if rest.isEmpty then none else some rest
      else if headIC ("DETECTED:".data) r2 then
        let rest := r2.drop 9
        if rest.isEmpty then none else some rest
      else none
  else none

/-- `re.search` of the SECRET pattern: try every start position. -/
def searchSecret : List Char → Option (List Char)
  | [] => none
  | c :: rest =>
    match matchSecretAt (c :: rest) with
    | some r => some r
    | none => searchSecret rest

def isDigitChar (c : Char) : Bool := '0' ≤ c && c ≤ '9'

/-- Match `CVE-\d{4}-\d+` at the head of `l` (case-insensitive). -/
def matchCveAt (l : List Char) : Bool :=
  headIC ("CVE-".data) l &&
    (let r := l.drop 4
     (r.take 4).length == 4 && (r.take 4).all isDigitChar &&
       (match r.drop 4 with
        | '-' :: d :: _ => isDigitChar d
        | _ => false))

/-- `re.search` of the CVE pattern: try every start position. -/
def containsCve : List Char → Bool
  | [] => false
  | c :: rest => matchCveAt (c :: rest) || containsCve rest

/-! ## Finding parser (`parse_finding`, src/backend/services/parser.py)

`parse_finding` walks `_FINDING_PATTERNS` in list order and returns a
finding dict for the first pattern whose `search` succeeds.  The list
order in the source is: CRITICAL, VULNERABILITY, FINDING, SECRET
FOUND|DETECTED, CVE, WARNING.  The dict's generated fields (uuid id,
timestamp) and constant fields are not modelled; the severity, type,
title and description are. -/

structure Finding where
  severity : String
  ftype : String
  title : String
  description : String
deriving Repr, DecidableEq

/-- Shallow embedding of `parse_finding`.  The title of a keyword
match is the stripped remainder after the keyword (equal to the
stripped capture group); the CVE pattern has no capture group, so the
title falls back to the stripped whole line, as in the source
(`match.group(1) if match.lastindex else line.strip()`). -/
def parseFinding (line : String) : Option Finding :=
  let cs := line.data
  let desc := String.mk (pyStrip cs)
  match matchKeyword ("CRITICAL:".data) cs with
  | some r => some ⟨ "critical", "security", String.mk (pyStrip r), desc ⟩
  | none =>
    match matchKeyword ("VULNERABILITY:".data) cs with
    | some r => some ⟨ "high", "security", String.mk (pyStrip r), desc ⟩
    | none =>
      match matchKeyword ("FINDING:".data) cs with
      | some r => some ⟨ "medium", "security", String.mk (pyStrip r), desc ⟩
      | none =>
        match searchSecret cs with
        | some r => some ⟨ "critical", "security", String.mk (pyStrip r), desc ⟩
        | none =>
          if containsCve cs then some ⟨ "high", "security", desc, desc ⟩
          else
            match matchKeyword ("WARNING:".data) cs with
            | some r => some ⟨ "low", "quality", String.mk (pyStrip r), desc ⟩
            | none => none

/-! ## Sandbox policy (`src/backend/services/sandbox.py`)

`detect_sandbox` inspects the environment in a fixed cascade of five
container markers; `_compute_execution_mode` turns the three booleans
into a mode string; `create_execution`
(`src/backend/routes/executions.py`) admits a task only when the
status is sandboxed or the operator override is active. -/

/-- Case-sensitive substring test, as Python `in` on strings. -/
def containsSub (marker : List Char) : List Char → Bool
  | [] => marker.isEmpty
  | c :: rest => marker.isPrefixOf (c :: rest) || containsSub marker rest

/-- The environment inputs read by `detect_sandbox`.  Env vars are
modelled by their truthiness or raw value; file probes by their
outcome. -/
structure SandboxEnv where
  /-- `DEVCONTAINER` env var is set to a truthy (non-empty) value. -/
  devcontainerVar : Bool
  /-- `ORCHESTRA_CONTAINER` env var is set to a truthy value. -/
  orchestraContainerVar : Bool
  /-- The file `/.dockerenv` exists. -/
  dockerenvExists : Bool
  /-- Contents of `/proc/1/cgroup`; `none` when unreadable. -/
  cgroupContent : Option String
  /-- Raw value of `BACKEND_HOST` (`none` when unset). -/
  backendHost : Option String
  /-- Raw value of `ORCHESTRA_ALLOW_HOST` (empty when unset). -/
  allowHostVar : String
  /-- Result of the five-second `docker info` probe. -/
  dockerAvailable : Bool

structure SandboxStatus where
  sandboxed : Bool
  containerType : Option String
  overrideActive : Bool
  dockerAvailable : Bool
  executionMode : String
deriving Repr, DecidableEq

/-- `_compute_execution_mode`. -/
def computeExecutionMode (sandboxed overrideActive dockerAvailable : Bool) : String :=
  if sandboxed then "native"
  else if overrideActive then "host-override"
  else if dockerAvailable then "docker-wrap"
  else "blocked"

/-- The cgroup branch of `detect_sandbox`: readable contents
mentioning docker, kubepods or containerd. -/
def cgroupIndicatesContainer : Option String → Bool
  | none => false
  | some s =>
    containsSub ("docker".data) s.data || containsSub ("kubepods".data) s.data ||
      containsSub ("containerd".data) s.data

/-- Shallow embedding of `detect_sandbox`: the five-marker cascade in
source order (DEVCONTAINER, ORCHESTRA_CONTAINER, `/.dockerenv`,
cgroup contents, `BACKEND_HOST=0.0.0.0`), each yielding a sandboxed
status with its container type; otherwise not sandboxed. -/
def detectSandbox (env : SandboxEnv) : SandboxStatus :=
  let override := pyLower env.allowHostVar == "true"
  if env.devcontainerVar then
    ⟨ true, some "devcontainer", override, env.dockerAvailable,
      computeExecutionMode true override env.dockerAvailable ⟩
  else if env.orchestraContainerVar then
    ⟨ true, some "orchestra-container", override, env.dockerAvailable,
      computeExecutionMode true override env.dockerAvailable ⟩
  else if env.dockerenvExists then
    ⟨ true, some "docker", override, env.dockerAvailable,
      computeExecutionMode true override env.dockerAvailable ⟩
  else if cgroupIndicatesContainer env.cgroupContent then
    ⟨ true, some "cgroup-container", override, env.dockerAvailable,
      computeExecutionMode true override env.dockerAvailable ⟩
  else if env.backendHost == some "0.0.0.0" then
    ⟨ true, some "network-inferred", override, env.dockerAvailable,
      computeExecutionMode true override env.dockerAvailable ⟩
  else
    ⟨ false, none, override, env.dockerAvailable,
      computeExecutionMode false override env.dockerAvailable ⟩

/-- The admission gate of `create_execution`
(`src/backend/routes/executions.py`): the request is rejected with
403 unless the status is sandboxed or the override is active; only an
admitted request creates the execution record and schedules
`_limited_run`, so no agent subprocess is spawned for a rejected
task. -/
def createExecutionAdmits (st : SandboxStatus) : Bool :=
  st.sandboxed || st.overrideActive

/-! ## Execution and agent status models

`run_dynamic_execution` (`src/backend/services/dynamic_orchestrator.py`)
ends in one of a handful of outcomes; its status assignment and the
fallback decision of `_limited_run` (`src/backend/routes/executions.py`)
are pure functions of that outcome.  The same holds for the final
status a dynamic agent receives in `launch_agent_subprocess`. -/

inductive ExecStatus
  | queued
  | running
  | completed
  | failed
deriving Repr, DecidableEq

/-- How a `run_dynamic_execution` call can end. -/
inductive DynOutcome
  /-- `require_execution_capability` raised (sandbox blocked). -/
  | sandboxBlocked
  /-- docker-wrap mode and `ensure_image` failed. -/
  | dockerBuildFailed
  /-- the `claude` binary is missing: `FileNotFoundError` is caught,
  the status is reset to queued and the exception re-raised. -/
  | cliNotFound
  /-- the orchestrator subprocess ran and exited with this code
  (a timeout kills the process and still lands here via its exit). -/
  | exited (returnCode : Int)
  /-- any other exception inside the run. -/
  | otherError
deriving Repr, DecidableEq

/-- The execution status that `run_dynamic_execution` leaves in the
store for each outcome (lines 174-184, 250-261, 344-351, 396-404 of
`dynamic_orchestrator.py`). -/
def runDynamicStatus : DynOutcome → ExecStatus
  | .sandboxBlocked => .failed
  | .dockerBuildFailed => .failed
  | .cliNotFound => .queued
  | .exited rc => if rc = 0 then .completed else .failed
  | .otherError => .failed

/-- The fallback decision of `_limited_run`
(`src/backend/routes/executions.py`, lines 31-44): after the dynamic
run, the static pipeline `run_execution` is invoked exactly when the
stored status differs from completed.  The number of dynamic agents
spawned during the run is available in the store but is not consulted
(it appears only in a diagnostic log line); it is carried here as an
explicit unused argument to record that fact. -/
def limitedRunInvokesFallback (_agentsSpawned : Nat) (o : DynOutcome) : Bool :=
  runDynamicStatus o ≠ ExecStatus.completed

inductive AgentStatus
  | pending
  | running
  | completed
  | failed
deriving Repr, DecidableEq

/-- How a `launch_agent_subprocess` call can end. -/
inductive AgentLaunchOutcome
  | sandboxBlocked
  | dockerBuildFailed
  /-- the `claude` binary is missing: the handler first marks the
  agent failed, then enters simulation mode and marks it completed. -/
  | cliNotFound
  | exited (returnCode : Int)
  | otherError
deriving Repr, DecidableEq

/-- The final agent status written by `launch_agent_subprocess`
(`src/backend/services/dynamic_orchestrator.py`, lines 434-448,
558-569, 637-652) for each outcome. -/
def launchAgentFinalStatus : AgentLaunchOutcome → AgentStatus
  | .sandboxBlocked => .failed
  | .dockerBuildFailed => .failed
  | .cliNotFound => .completed
  | .exited rc => if rc = 0 then .completed else .failed
  | .otherError => .failed

/-- The output lines appended by the `FileNotFoundError` handler of
`launch_agent_subprocess` (simulation fallback, lines 642-648). -/
def launchAgentCliNotFoundOutput (name task : String) : List String :=
  [ "[Error: Claude CLI not found — running in simulation mode]",
    "[Simulated] " ++ name ++ " completed task: " ++ task.take 80 ]

/-! ## Internal API token checks

Two distinct `_verify_token` functions guard the internal sidechannel
endpoints: the question/answer routes (`src/backend/routes/internal.py`)
and the dynamic-agent routes (`src/backend/routes/internal_dynamic.py`).
Both are pure decisions on the provided header and the stored process
token; they are modelled as returning the HTTP error status raised, or
`none` when the request passes. -/

/-- `_verify_token` of `internal.py`: the header is a required
parameter (a missing header is rejected by request validation with
422 before the function runs); a provided token is compared with `!=`
(ordinary short-circuiting string comparison) and rejected with
status 403. -/
def verifyTokenQuestionRoutes (provided stored : String) : Option Nat :=
  if provided ≠ stored then some 403 else none

/-- `_verify_token` of `internal_dynamic.py`: the header is optional;
a missing or empty token, or one failing `hmac.compare_digest`
(constant-time equality at the implementation level, plain equality
denotationally), is rejected with status 401. -/
def verifyTokenAgentRoutes (provided : Option String) (stored : String) : Option Nat :=
  match provided with
  | none => some 401
  | some t => if t = "" then some 401 else if t = stored then none else some 401

/-! ## Event bus and replay buffers (`src/backend/store.py`, `src/backend/routes/ws.py`)

`broadcast` appends the message to the per-execution replay buffer
(evicting from the front beyond cap 500) and only then iterates the
subscriber set; `execution_ws` registers a new connection and replays
the whole buffer before the connection sees live messages. -/

def MESSAGE_BUFFER_CAP : Nat := 500

/-- The buffering step of `broadcast`: `buf.append(message)` followed
by `del buf[: len(buf) - 500]` when over the cap. -/
def capAppend (buf : List String) (m : String) : List String :=
  let b := buf ++ [m]
  if MESSAGE_BUFFER_CAP < b.length then b.drop (b.length - MESSAGE_BUFFER_CAP) else b

/-- The state of one execution stream: its replay buffer and the set
of registered subscriber connections (connections are identified by
numbers). -/
structure StreamState where
  buf : List String
  subs : List Nat
deriving Repr, DecidableEq

/-- `broadcast` for one stream: buffer first, then deliver the payload
to every registered subscriber.  Returns the new state and the
(subscriber, message) deliveries performed, in order. -/
def broadcastStep (st : StreamState) (m : String) : StreamState × List (Nat × String) :=
  let buf := capAppend st.buf m
  (⟨ buf, st.subs ⟩, st.subs.map (fun c => (c, m)))

/-- Subscribing in `execution_ws`: the connection is registered, then
the whole replay buffer is sent to it in order.  Returns the new
state and the replayed messages the subscriber receives. -/
def subscribeStep (st : StreamState) (c : Nat) : StreamState × List String :=
  (⟨ st.buf, st.subs ++ [c] ⟩, st.buf)

/-- Publish a whole list of messages in order. -/
def publishAll (st : StreamState) (ms : List String) : StreamState :=
  ms.foldl (fun s m => (broadcastStep s m).1) st

/-- The messages a given subscriber receives from publishing `ms`. -/
def deliveriesTo (c : Nat) (st : StreamState) (ms : List String) : List String :=
  match ms with
  | [] => []
  | m :: rest =>
    let step := broadcastStep st m
    ((step.2.filter (fun p => p.1 = c)).map (fun p => p.2)) ++ deliveriesTo c step.1 rest

/-- Everything subscriber `c` receives when it connects after
`history` was published and `future` is published afterwards: the
replay at connect time followed by the live deliveries. -/
def lateSubscriberReceives (history future : List String) (c : Nat) : List String :=
  let st := publishAll ⟨ [], [] ⟩ history
  let sub := subscribeStep st c
  sub.2 ++ deliveriesTo c sub.1 future

/-! ## Await-many resolution (`wait_for_agents`, src/backend/routes/internal_dynamic.py)

The handler resolves the requested ids by iterating the global
per-execution agent table in its own order and, inside each execution,
iterating the requested ids in input order; resolved agents are then
awaited together and the results reported in resolution order. -/

/-- The id-resolution loop of `wait_for_agents` (lines 219-223): for
each execution entry of the agent table (in table order), every
requested id found in that execution is appended.  The result list
order is the order of `agents_to_wait`, which is also the order of
the results array returned after the gather. -/
def resolveAgents (table : List (String × List String)) (ids : List String) : List String :=
  (table.map (fun e => ids.filter (fun i => e.2.contains i))).flatten

/-! ## Spawn cap (`spawn_agent`, src/backend/routes/internal_dynamic.py)

After allocating an id and building the record, the handler ensures
the per-execution table entry exists, refuses with 429 when it already
holds `MAX_AGENTS_PER_EXECUTION` agents, and otherwise inserts the new
record. -/

def MAX_AGENTS_PER_EXECUTION : Nat := 100

/-- The cap check and insertion of `spawn_agent` (lines 96-100),
restricted to one execution's agent table (a list of agent-id keys in
insertion order).  Returns the table after the call together with the
HTTP error raised, if any: 429 with the table untouched when the cap
is reached, otherwise no error and the table with the new id
appended. -/
def spawnAgentStep (agents : List String) (agentId : String) :
    List String × Option Nat :=
  if MAX_AGENTS_PER_EXECUTION ≤ agents.length then (agents, some 429)
  else (agents ++ [agentId], none)

/-! ## Pending questions (`src/backend/routes/internal.py`)

The question table maps question ids to entries holding the answer
slot and the completion signal.  Python dict entries are objects: a
handler that read an entry keeps a reference to it even after
`cleanup_question` pops the id from the table.  This is modelled with
a heap of entries (never deleted) plus the list of live ids: `pop`
removes the id from the live list while the heap entry stays
readable for handlers that captured it. -/

structure QEntry where
  answer : Option String
  eventSet : Bool
deriving Repr, DecidableEq

structure QStore where
  /-- entry objects by id; survives cleanup (captured references). -/
  heap : List (String × QEntry)
  /-- ids currently present in `store.pending_questions`. -/
  live : List String
deriving Repr, DecidableEq

def qLookup (s : QStore) (qid : String) : Option QEntry :=
  if s.live.contains qid then (s.heap.lookup qid) else none

/-- `post_answer` (lines 99-111): 404 when the id is not in the
table; otherwise write the answer into the entry, set the event, run
`cleanup_question` (removing the id from the table), and return 200.
The heap entry keeps the written answer. -/
def postAnswer (s : QStore) (qid ans : String) : QStore × Nat :=
  match qLookup s qid with
  | none => (s, 404)
  | some _ =>
    ( ⟨ s.heap.map (fun p => if p.1 = qid then (p.1, ⟨ some ans, true ⟩) else p),
        s.live.filter (fun i => i ≠ qid) ⟩,
      200 )

/-- The immediate part of `get_answer` (lines 79-96): 404 when the id
is not in the table; the stored answer when it is already set;
otherwise the handler suspends on the entry's event (modelled by
`none`: the response is not yet determined). -/
def getAnswerNow (s : QStore) (qid : String) : Option (Except Nat String) :=
  match qLookup s qid with
  | none => some (Except.error 404)
  | some e =>
    match e.answer with
    | some a => some (Except.ok a)
    | none => none

/-- Phase one of a long-polling `get_answer`: capture the entry
reference (`entry = store.pending_questions.get(question_id)`), which
succeeds exactly when the id is live. -/
def getAnswerCapture (s : QStore) (qid : String) : Bool :=
  s.live.contains qid

/-- Phase two of a long-polling `get_answer`, resumed after the
entry's event fires: read `entry["answer"]` through the captured
reference, i.e. from the heap, ignoring the live list. -/
def getAnswerResume (s : QStore) (qid : String) : Option String :=
  match s.heap.lookup qid with
  | none => none
  | some e => e.answer

/-! ## Websocket admission (`execution_ws`, src/backend/routes/ws.py)

Before accepting, the handler reads the Origin header (absent becomes
the empty string), closes with 4003 when it is non-empty and not in
the allowlist, closes with 4004 when the execution already has 10
registered connections, and otherwise accepts and registers the
connection. -/

def MAX_CONNECTIONS_PER_EXECUTION : Nat := 10

inductive WsDecision
  | closed (code : Nat)
  | accepted
deriving Repr, DecidableEq

/-- The admission prefix of `execution_ws` (lines 27-44): the check
order and the registration effect.  `conns` is the current connection
set for the execution; the returned set is unchanged unless the
connection is accepted. -/
def wsAdmission (origin : String) (allowed : List String) (conns : List Nat)
    (c : Nat) : WsDecision × List Nat :=
  if origin ≠ "" ∧ ¬ allowed.contains origin then (WsDecision.closed 4003, conns)
  else if MAX_CONNECTIONS_PER_EXECUTION ≤ conns.length then (WsDecision.closed 4004, conns)
  else (WsDecision.accepted, conns ++ [c])

/-! ## Theorems -/

/-- C1 (counterexample): an orchestrator exit with code 1 after one
child agent was spawned leaves the execution failed, and
`_limited_run` invokes the static fallback pipeline anyway — the
claim asserts the fallback is not invoked in this situation. -/
theorem C1_counterexample :
    limitedRunInvokesFallback 1 (DynOutcome.exited 1) = true ∧
    runDynamicStatus (DynOutcome.exited 1) = ExecStatus.failed := by
  refine ⟨ by decide, by decide ⟩

/-- C1 (amended): `_limited_run` invokes the static fallback pipeline
exactly when the dynamic orchestrator run ends in anything other than
a zero-code orchestrator exit — in particular also when the
orchestrator exits non-zero after spawning child agents; the
spawned-agent count is never consulted. -/
theorem C1_fallback_condition (spawned : Nat) (o : DynOutcome) :
    limitedRunInvokesFallback spawned o = true ↔ o ≠ DynOutcome.exited 0 := by
  cases o with
  | exited rc =>
    by_cases h : rc = 0 <;> simp [limitedRunInvokesFallback, runDynamicStatus, h]
  | _ => simp [limitedRunInvokesFallback, runDynamicStatus]

/-- C2 (counterexample): the line FINDING: SECRET FOUND: key matches
both the SECRET FOUND|DETECTED rule and the FINDING rule, yet
`parse_finding` classifies it medium/security, not the
critical/security the claim requires. -/
theorem C2_counterexample :
    (searchSecret ("FINDING: SECRET FOUND: key".data)).isSome = true ∧
    (matchKeyword ("FINDING:".data) ("FINDING: SECRET FOUND: key".data)).isSome = true ∧
    parseFinding "FINDING: SECRET FOUND: key" =
      some ⟨ "medium", "security", "SECRET FOUND: key", "FINDING: SECRET FOUND: key" ⟩ ∧
    ("medium" : String) ≠ "critical" := by
  refine ⟨ by decide, by decide, by decide, by decide ⟩

/-- C2 (amended): the finding rules are tried in the source order
CRITICAL, VULNERABILITY, FINDING, SECRET FOUND|DETECTED, CVE, WARNING
with first match winning: whenever the CRITICAL and VULNERABILITY
rules fail and the FINDING rule matches, the parsed finding is
medium/security — even when the SECRET rule also matches. -/
theorem C2_rule_order (line : String)
    (hc : matchKeyword ("CRITICAL:".data) line.data = none)
    (hv : matchKeyword ("VULNERABILITY:".data) line.data = none)
    (hf : (matchKeyword ("FINDING:".data) line.data).isSome = true) :
    parseFinding line =
      some ⟨ "medium", "security",
        String.mk (pyStrip ((matchKeyword ("FINDING:".data) line.data).getD [])),
        String.mk (pyStrip line.data) ⟩ := by
  obtain ⟨r, hr⟩ := Option.isSome_iff_exists.mp hf
  simp [parseFinding, hc, hv, hr]

set_option maxRecDepth 8192 in
/-- C2 (witness): `C2_rule_order` applied to the concrete line. -/
theorem C2_rule_order_witness :
    matchKeyword ("CRITICAL:".data) ("FINDING: SECRET DETECTED: key".data) = none ∧
    matchKeyword ("VULNERABILITY:".data) ("FINDING: SECRET DETECTED: key".data) = none ∧
    (matchKeyword ("FINDING:".data) ("FINDING: SECRET DETECTED: key".data)).isSome = true ∧
    parseFinding "FINDING: SECRET DETECTED: key" =
      some ⟨ "medium", "security",
        String.mk (pyStrip ((matchKeyword ("FINDING:".data)
          ("FINDING: SECRET DETECTED: key".data)).getD [])),
        String.mk (pyStrip ("FINDING: SECRET DETECTED: key".data)) ⟩ :=
  ⟨ by decide, by decide, by decide,
    C2_rule_order "FINDING: SECRET DETECTED: key" (by decide) (by decide) (by decide) ⟩

/-- C3 (counterexample): when the agent binary is missing, the
`FileNotFoundError` handler of `launch_agent_subprocess` leaves the
agent completed (simulation fallback), not failed as the claim
requires. -/
theorem C3_counterexample :
    launchAgentFinalStatus AgentLaunchOutcome.cliNotFound = AgentStatus.completed ∧
    AgentStatus.completed ≠ AgentStatus.failed := by
  refine ⟨ rfl, by decide ⟩

set_option maxRecDepth 8192 in
/-- C3 (amended): a dynamic agent ends completed exactly when its
subprocess exits zero or the agent binary is missing — the missing
binary triggers the simulation fallback, which appends an error line
plus a simulated completion line and marks the agent completed.  At
task level a missing binary makes `run_dynamic_execution` reset the
execution to queued and re-raise, so `_limited_run` runs the static
pipeline (which itself simulates phases) instead of failing the
task. -/
theorem C3_cli_missing_simulation :
    (∀ o, launchAgentFinalStatus o = AgentStatus.completed ↔
      (o = AgentLaunchOutcome.cliNotFound ∨ o = AgentLaunchOutcome.exited 0)) ∧
    runDynamicStatus DynOutcome.cliNotFound = ExecStatus.queued ∧
    limitedRunInvokesFallback 0 DynOutcome.cliNotFound = true ∧
    launchAgentCliNotFoundOutput "Developer" "fix the bug" =
      [ "[Error: Claude CLI not found — running in simulation mode]",
        "[Simulated] Developer completed task: fix the bug" ] := by
  refine ⟨ ?_, by decide, by decide, by decide ⟩
  intro o
  cases o with
  | exited rc =>
    by_cases h : rc = 0 <;> simp [launchAgentFinalStatus, h]
  | _ => simp [launchAgentFinalStatus]

/-- C4 (counterexample): a mismatching token on the question routes is
rejected with status 403, not the 401 the claim requires; the
comparison used there is the ordinary short-circuiting one. -/
theorem C4_counterexample :
    verifyTokenQuestionRoutes "wrong" "secret" = some 403 ∧ (403 : Nat) ≠ 401 := by
  refine ⟨ by decide, by decide ⟩

/-- C4 (amended): the dynamic-agent routes reject a missing, empty or
mismatching token with 401 (their comparison is a constant-time
digest comparison) and accept exactly a non-empty token equal to the
stored one; the question routes instead reject a mismatching token
with 403 via an ordinary comparison and accept exactly the stored
token.  Either check runs before the handler body, so a rejected
request changes no state. -/
theorem C4_token_checks :
    (∀ p s : String, verifyTokenQuestionRoutes p s = none ↔ p = s) ∧
    (∀ p s : String, verifyTokenQuestionRoutes p s = none ∨
      verifyTokenQuestionRoutes p s = some 403) ∧
    (∀ (p : Option String) (s : String), verifyTokenAgentRoutes p s = none ↔
      (∃ t, p = some t ∧ t ≠ "" ∧ t = s)) ∧
    (∀ (p : Option String) (s : String), verifyTokenAgentRoutes p s = none ∨
      verifyTokenAgentRoutes p s = some 401) := by
  refine ⟨ ?_, ?_, ?_, ?_ ⟩
  · intro p s
    by_cases h : p = s <;> simp [verifyTokenQuestionRoutes, h]
  · intro p s
    by_cases h : p = s <;> simp [verifyTokenQuestionRoutes, h]
  · intro p s
    cases p with
    | none => simp [verifyTokenAgentRoutes]
    | some t =>
      by_cases he : t = "" <;> by_cases hs : t = s <;>
        simp [verifyTokenAgentRoutes, he, hs]
  · intro p s
    cases p with
    | none => simp [verifyTokenAgentRoutes]
    | some t =>
      by_cases he : t = "" <;> by_cases hs : t = s <;>
        simp [verifyTokenAgentRoutes, he, hs] <;> tauto

/-- C5 (counterexample): with `BACKEND_HOST=0.0.0.0` set and none of
the four markers the claim lists, no override and no docker, the
policy yields `native` (the network-inferred fifth marker), not the
`blocked` the claim requires. -/
theorem C5_counterexample :
    cgroupIndicatesContainer (some "") = false ∧
    (detectSandbox ⟨ false, false, false, some "", some "0.0.0.0", "", false ⟩).executionMode
      = "native" ∧
    ("native" : String) ≠ "blocked" ∧
    (detectSandbox ⟨ false, false, false, some "", some "0.0.0.0", "", false ⟩).containerType
      = some "network-inferred" := by
  refine ⟨ by decide, by decide, by decide, by decide ⟩

/-- C5 (amended): the policy yields `blocked` exactly when none of the
five container markers (devcontainer variable, explicit opt-in
variable, the docker marker file, cgroup contents mentioning
container technologies, the `BACKEND_HOST=0.0.0.0` network-inferred
marker) is present, the override variable is not `true`, and no
container runtime is available; a blocked status is rejected at
admission, so no agent subprocess is spawned. -/
theorem C5_blocked_conditions (env : SandboxEnv) :
    ((detectSandbox env).executionMode = "blocked" ↔
      (env.devcontainerVar = false ∧ env.orchestraContainerVar = false ∧
        env.dockerenvExists = false ∧
        cgroupIndicatesContainer env.cgroupContent = false ∧
        (env.backendHost == some "0.0.0.0") = false ∧
        (pyLower env.allowHostVar == "true") = false ∧
        env.dockerAvailable = false)) ∧
    ((detectSandbox env).executionMode = "blocked" →
      createExecutionAdmits (detectSandbox env) = false) := by
  obtain ⟨dc, oc, de, cg, bh, ah, da⟩ := env
  simp only [detectSandbox, createExecutionAdmits, computeExecutionMode]
  cases dc <;> cases oc <;> cases de <;>
    cases hcg : cgroupIndicatesContainer cg <;>
    cases hbh : bh == some "0.0.0.0" <;>
    cases hov : pyLower ah == "true" <;>
    cases da <;> simp_all

/-- C5 (witness): `C5_blocked_conditions` applied to the bare-metal
environment with no markers, no override and no docker. -/
theorem C5_blocked_conditions_witness :
    (detectSandbox ⟨ false, false, false, none, none, "", false ⟩).executionMode
      = "blocked" ∧
    createExecutionAdmits (detectSandbox ⟨ false, false, false, none, none, "", false ⟩)
      = false :=
  ⟨ by decide,
    (C5_blocked_conditions ⟨ false, false, false, none, none, "", false ⟩).2 (by decide) ⟩

/-- The buffering step rewritten as keeping the length-capped tail. -/
theorem capAppend_as_drop (buf : List String) (m : String) :
    capAppend buf m = (buf ++ [m]).drop ((buf ++ [m]).length - MESSAGE_BUFFER_CAP) := by
  simp only [capAppend]
  split
  · rfl
  · next h2 =>
    rw [Nat.sub_eq_zero_of_le (Nat.le_of_not_lt h2), List.drop_zero]

/-- Keeping the capped tail, appending, and capping again is the same
as appending and capping once. -/
theorem dropTail_append_absorb {α : Type} (k : Nat) (l ms : List α) :
    ((l.drop (l.length - k)) ++ ms).drop
        (((l.drop (l.length - k)) ++ ms).length - k) =
      (l ++ ms).drop ((l ++ ms).length - k) := by
  rcases Nat.le_total l.length k with h | h
  · rw [Nat.sub_eq_zero_of_le h, List.drop_zero]
  · have hlen : (l.drop (l.length - k)).length = k := by
      rw [List.length_drop]; omega
    rw [List.length_append, hlen, Nat.add_sub_cancel_left,
      List.drop_append_eq_append_drop, List.drop_drop,
      List.drop_append_eq_append_drop, List.length_append]
    congr 2 <;> omega

/-- The replay buffer never grows beyond the cap. -/
theorem capAppend_length_le (buf : List String) (m : String) :
    (capAppend buf m).length ≤ MESSAGE_BUFFER_CAP := by
  simp only [capAppend]
  split
  · next h2 =>
    rw [List.length_drop]
    omega
  · next h2 =>
    exact Nat.le_of_not_lt h2

/-- Publishing leaves the subscriber set unchanged. -/
theorem publishAll_subs (ms : List String) (st : StreamState) :
    (publishAll st ms).subs = st.subs := by
  induction ms generalizing st with
  | nil => rfl
  | cons m rest ih =>
    show (publishAll ⟨ capAppend st.buf m, st.subs ⟩ rest).subs = st.subs
    rw [ih]

/-- After publishing `ms`, the replay buffer holds the capped tail of
everything published. -/
theorem publishAll_buf (ms : List String) (st : StreamState)
    (h : st.buf.length ≤ MESSAGE_BUFFER_CAP) :
    (publishAll st ms).buf =
      (st.buf ++ ms).drop ((st.buf ++ ms).length - MESSAGE_BUFFER_CAP) := by
  induction ms generalizing st with
  | nil =>
    simp [publishAll, Nat.sub_eq_zero_of_le h]
  | cons m rest ih =>
    have step := ih ⟨ capAppend st.buf m, st.subs ⟩ (capAppend_length_le st.buf m)
    dsimp only at step
    show (publishAll ⟨ capAppend st.buf m, st.subs ⟩ rest).buf = _
    rw [step, capAppend_as_drop]
    have habs := dropTail_append_absorb MESSAGE_BUFFER_CAP (st.buf ++ [m]) rest
    simpa [List.append_assoc] using habs

/-- A stream whose only subscriber is `c` delivers every published
message to `c`, in order. -/
theorem deliveriesTo_single_sub (c : Nat) (future : List String) :
    ∀ buf : List String, deliveriesTo c ⟨ buf, [c] ⟩ future = future := by
  induction future with
  | nil => intro buf; rfl
  | cons m rest ih =>
    intro buf
    simp [deliveriesTo, broadcastStep, ih]

/-- C6: every published message is buffered before the send attempt,
so a subscriber that connects after `history` was published receives
exactly the most recent `min (length history) 500` buffered messages
in publication order, followed by every subsequently published
message in publication order. -/
theorem C6_replay_buffer (history future : List String) (c : Nat) :
    lateSubscriberReceives history future c =
      history.drop (history.length - MESSAGE_BUFFER_CAP) ++ future ∧
    (history.drop (history.length - MESSAGE_BUFFER_CAP)).length =
      min history.length MESSAGE_BUFFER_CAP := by
  constructor
  · have hsubs : (publishAll ⟨ [], [] ⟩ history).subs = [] := publishAll_subs history _
    have hbuf : (publishAll ⟨ [], [] ⟩ history).buf =
        history.drop (history.length - MESSAGE_BUFFER_CAP) := by
      simpa using publishAll_buf history ⟨ [], [] ⟩ (by simp)
    show (publishAll ⟨ [], [] ⟩ history).buf ++
        deliveriesTo c ⟨ (publishAll ⟨ [], [] ⟩ history).buf,
          (publishAll ⟨ [], [] ⟩ history).subs ++ [c] ⟩ future =
      List.drop (history.length - MESSAGE_BUFFER_CAP) history ++ future
    rw [hsubs, hbuf]
    simp [deliveriesTo_single_sub]
  · rw [List.length_drop]
    omega

/-- C7 (counterexample): resolving two ids that live in different
executions returns them in agent-table order, not in the requested
input order. -/
theorem C7_counterexample :
    resolveAgents [("exec-001", ["agent-0001"]), ("exec-002", ["agent-0002"])]
        ["agent-0002", "agent-0001"] = ["agent-0001", "agent-0002"] ∧
    (["agent-0001", "agent-0002"] : List String) ≠ ["agent-0002", "agent-0001"] := by
  refine ⟨ by decide, by decide ⟩

/-- C7 (amended): `wait_for_agents` resolution skips unknown ids and
reports only requested ids, grouped by the agent-table's execution
order with the input order kept inside each execution; when all
resolved agents belong to a single execution the result order matches
the input id order. -/
theorem C7_resolution_order :
    (∀ (e : String) (agents ids : List String),
      resolveAgents [(e, agents)] ids = ids.filter (fun i => agents.contains i)) ∧
    (∀ (table : List (String × List String)) (ids : List String) (i : String),
      i ∈ resolveAgents table ids → i ∈ ids) := by
  constructor
  · intro e agents ids
    simp [resolveAgents]
  · intro table ids i hi
    simp only [resolveAgents, List.mem_flatten, List.mem_map] at hi
    obtain ⟨l, ⟨ent, _, rfl⟩, hil⟩ := hi
    exact (List.mem_filter.mp hil).1

/-- C7 (witness): `C7_resolution_order` applied to a single-execution
table with one unknown id. -/
theorem C7_resolution_order_witness :
    resolveAgents [("exec-001", ["agent-0001", "agent-0002"])]
        ["agent-0002", "agent-0009", "agent-0001"] = ["agent-0002", "agent-0001"] ∧
    "agent-0002" ∈ (["agent-0002", "agent-0009", "agent-0001"] : List String) := by
  refine ⟨ ?_, ?_ ⟩
  · rw [C7_resolution_order.1 "exec-001" ["agent-0001", "agent-0002"]
      ["agent-0002", "agent-0009", "agent-0001"]]
    decide
  · exact C7_resolution_order.2 [("exec-001", ["agent-0001", "agent-0002"])]
      ["agent-0002", "agent-0009", "agent-0001"] "agent-0002" (by decide)

/-- C8: the per-execution dynamic-agent table never exceeds 100
entries: a spawn request hitting a full table returns 429 and leaves
the table unchanged, and a successful spawn starting from a
compliant table stays within the cap. -/
theorem C8_spawn_cap (agents : List String) (aid : String) :
    (MAX_AGENTS_PER_EXECUTION ≤ agents.length →
      spawnAgentStep agents aid = (agents, some 429)) ∧
    (agents.length ≤ MAX_AGENTS_PER_EXECUTION →
      (spawnAgentStep agents aid).1.length ≤ MAX_AGENTS_PER_EXECUTION) ∧
    (agents.length < MAX_AGENTS_PER_EXECUTION →
      spawnAgentStep agents aid = (agents ++ [aid], none)) := by
  refine ⟨ ?_, ?_, ?_ ⟩
  · intro h
    simp [spawnAgentStep, h]
  · intro h
    unfold spawnAgentStep
    split
    · simpa using h
    · next h2 =>
      simp only [List.length_append, List.length_cons, List.length_nil]
      omega
  · intro h
    simp [spawnAgentStep, Nat.not_le_of_lt h]

/-- C8 (witness): `C8_spawn_cap` applied to a table of exactly 100
agents (429, unchanged) and to a table of one agent (insertion). -/
theorem C8_spawn_cap_witness :
    spawnAgentStep ((List.range 100).map (fun i => toString i)) "agent-0101" =
      (((List.range 100).map (fun i => toString i)), some 429) ∧
    spawnAgentStep ["agent-0001"] "agent-0002" = (["agent-0001", "agent-0002"], none) := by
  refine ⟨ ?_, ?_ ⟩
  · exact (C8_spawn_cap ((List.range 100).map (fun i => toString i)) "agent-0101").1
      (by simp [MAX_AGENTS_PER_EXECUTION])
  · exact (C8_spawn_cap ["agent-0001"] "agent-0002").2.2 (by decide)

/-- Updating one key of the question heap is visible to a lookup of
that key. -/
theorem lookup_map_update (heap : List (String × QEntry)) (qid : String) (v : QEntry)
    (h : (List.lookup qid heap).isSome = true) :
    List.lookup qid (heap.map (fun p => if p.1 = qid then (p.1, v) else p)) = some v := by
  induction heap with
  | nil => simp at h
  | cons p rest ih =>
    obtain ⟨k, w⟩ := p
    by_cases hk : k = qid
    · subst hk
      simp [List.lookup_cons]
    · have hne : (qid == k) = false := by
        rw [beq_eq_false_iff_ne]
        exact fun hq => hk hq.symm
      rw [List.lookup_cons, hne] at h
      rw [List.map_cons]
      simp only [hk, if_false]
      rw [List.lookup_cons, hne]
      exact ih h

/-- A POST of an answer to an id absent from the table returns 404
and leaves the store unchanged. -/
theorem postAnswer_not_found (s : QStore) (qid ans : String)
    (h : qLookup s qid = none) : postAnswer s qid ans = (s, 404) := by
  simp only [postAnswer, h]

/-- C9 (counterexample): answering a pending question removes it
immediately, so a fresh GET issued after the answer was posted
returns 404 instead of the answer the claim requires. -/
theorem C9_counterexample :
    (postAnswer ⟨ [("q1", ⟨ none, false ⟩)], ["q1"] ⟩ "q1" "postgres").2 = 200 ∧
    getAnswerNow (postAnswer ⟨ [("q1", ⟨ none, false ⟩)], ["q1"] ⟩ "q1" "postgres").1 "q1"
      = some (Except.error 404) := by
  refine ⟨ rfl, rfl ⟩

/-- C9 (amended): the first POST of an answer succeeds (200) and
removes the question, so a second POST returns 404 and a GET issued
after the answer returns 404; a long-polling GET that captured the
question entry before the answer arrived reads the answer from the
captured entry after the POST. -/
theorem C9_answer_lifecycle (s : QStore) (qid ans : String) (e : QEntry)
    (h : qLookup s qid = some e) :
    getAnswerCapture s qid = true ∧
    (postAnswer s qid ans).2 = 200 ∧
    getAnswerResume (postAnswer s qid ans).1 qid = some ans ∧
    getAnswerNow (postAnswer s qid ans).1 qid = some (Except.error 404) ∧
    (postAnswer (postAnswer s qid ans).1 qid ans).2 = 404 := by
  have hcontains : s.live.contains qid = true := by
    by_cases hc : s.live.contains qid = true
    · exact hc
    · exfalso
      unfold qLookup at h
      rw [if_neg hc] at h
      exact Option.noConfusion h
  have hheap : List.lookup qid s.heap = some e := by
    unfold qLookup at h
    rwa [if_pos hcontains] at h
  have hs1 : (postAnswer s qid ans).1 =
      ⟨ s.heap.map (fun p => if p.1 = qid then (p.1, ⟨ some ans, true ⟩) else p),
        s.live.filter (fun i => i ≠ qid) ⟩ := by
    simp only [postAnswer, h]
  have hlive1 : ((postAnswer s qid ans).1).live.contains qid = false := by
    rw [hs1]
    show List.elem qid (s.live.filter fun i => i ≠ qid) = false
    rw [List.elem_eq_mem, decide_eq_false_iff_not]
    intro hmem
    have hpred := (List.mem_filter.mp hmem).2
    simp at hpred
  have hneg : ¬ (((postAnswer s qid ans).1).live.contains qid = true) := by
    rw [hlive1]
    exact Bool.false_ne_true
  have hlook1 : qLookup (postAnswer s qid ans).1 qid = none := by
    unfold qLookup
    rw [if_neg hneg]
  refine ⟨ hcontains, ?_, ?_, ?_, ?_ ⟩
  · simp only [postAnswer, h]
  · rw [hs1]
    have hup := lookup_map_update s.heap qid ⟨ some ans, true ⟩ (by rw [hheap]; rfl)
    unfold getAnswerResume
    rw [hup]
  · simp only [getAnswerNow, hlook1]
  · rw [postAnswer_not_found _ _ _ hlook1]

/-- C9 (witness): `C9_answer_lifecycle` applied to a store holding the
single unanswered question q1. -/
theorem C9_answer_lifecycle_witness :
    getAnswerCapture ⟨ [("q1", ⟨ none, false ⟩)], ["q1"] ⟩ "q1" = true ∧
    getAnswerResume (postAnswer ⟨ [("q1", ⟨ none, false ⟩)], ["q1"] ⟩ "q1" "postgres").1 "q1"
      = some "postgres" ∧
    (postAnswer (postAnswer ⟨ [("q1", ⟨ none, false ⟩)], ["q1"] ⟩ "q1" "postgres").1
        "q1" "postgres").2 = 404 := by
  have h := C9_answer_lifecycle ⟨ [("q1", ⟨ none, false ⟩)], ["q1"] ⟩ "q1" "postgres"
    ⟨ none, false ⟩ (by decide)
  exact ⟨ h.1, h.2.2.1, h.2.2.2.2 ⟩

/-- C10: the websocket origin allowlist is enforced only for a
non-empty Origin header: an empty (or absent, which reads as empty)
origin is admitted subject only to the connection cap of 10, while a
non-empty origin outside the allowlist is closed with 4003 and the
connection set stays unchanged. -/
theorem C10_ws_origin_gate (origin : String) (allowed : List String)
    (conns : List Nat) (c : Nat) :
    (origin = "" → wsAdmission origin allowed conns c =
      (if MAX_CONNECTIONS_PER_EXECUTION ≤ conns.length then (WsDecision.closed 4004, conns)
       else (WsDecision.accepted, conns ++ [c]))) ∧
    (origin ≠ "" → allowed.contains origin = false →
      wsAdmission origin allowed conns c = (WsDecision.closed 4003, conns)) := by
  constructor
  · intro h
    simp [wsAdmission, h]
  · intro h1 h2
    have h3 : ¬ origin ∈ allowed := by
      have he : List.elem origin allowed = false := h2
      rw [List.elem_eq_mem] at he
      exact of_decide_eq_false he
    simp [wsAdmission, h1, h3]

/-- C10 (witness): `C10_ws_origin_gate` applied to an empty origin on
an empty connection set and to a disallowed origin. -/
theorem C10_ws_origin_gate_witness :
    wsAdmission "" ["http://localhost:3000"] [] 7 = (WsDecision.accepted, [7]) ∧
    wsAdmission "http://evil.example" ["http://localhost:3000"] [0, 1] 7 =
      (WsDecision.closed 4003, [0, 1]) := by
  refine ⟨ ?_, ?_ ⟩
  · have h := (C10_ws_origin_gate "" ["http://localhost:3000"] [] 7).1 rfl
    simpa using h
  · exact (C10_ws_origin_gate "http://evil.example" ["http://localhost:3000"] [0, 1] 7).2
      (by decide) (by decide)

end Orchestra
